import Mathlib

/-!
Shallow embedding of the synchronization primitives in `src/synch.c`
(OS161-style semaphores, locks and condition variables).

Part 1: a small-step interleaving model of the lock protocol
(`lock_acquire` / `lock_release`), used for the holder-accounting
invariant.  Each program counter value corresponds to a control point
of the C code between its atomic actions; the spin-guard `lock_lock`
is the `guard` field, the wait channel `lock_wchan` is the `queue`
field, and `holding_thread` is the `holder` field.
-/

namespace Synch

/-- Thread identity (`struct thread *` compared by pointer equality). -/
abbrev Tid := Nat

/-- Control points of a thread running the lock protocol of `synch.c`:
`idle` (outside), the acquire path of `lock_acquire` (lines 195-238),
`sleeping` (inside `wchan_sleep`), `holding` (owns the lock), and the
release path of `lock_release` (lines 239-272). -/
inductive Pc where
  | idle
  | wantGuard
  | atLoop
  | sleeping
  | relGuardA
  | holding
  | wantGuardR
  | inRelease
  | didClear
  | didWake
deriving DecidableEq

/-- State of one lock plus the control points of every thread.
`holder` is `lock->holding_thread`, `guard` is the owner of the
spinlock `lock->lock_lock` (none when free), `queue` is the list of
threads sleeping on `lock->lock_wchan`. -/
structure LS where
  holder : Option Tid
  guard : Option Tid
  queue : List Tid
  pcs : Tid → Pc

/-- Pointwise update of the program-counter map. -/
def setPc (pcs : Tid → Pc) (t : Tid) (p : Pc) : Tid → Pc :=
  fun u => if u = t then p else pcs u

/-- Interleaving semantics: one atomic action of thread `t` on the lock.
Each constructor is one atomic step of `lock_acquire` / `lock_release`
in `synch.c`; a `KASSERT` appears as an enabling condition (a violation
is fatal, hence no transition). -/
inductive Step : Tid → LS → LS → Prop where
  | startAcquire (t : Tid) (s : LS)
      (h : s.pcs t = Pc.idle) (hh : s.holder ≠ some t) :
      Step t s { s with pcs := setPc s.pcs t Pc.wantGuard }
  | getGuard (t : Tid) (s : LS)
      (h : s.pcs t = Pc.wantGuard) (hg : s.guard = none) :
      Step t s { s with guard := some t, pcs := setPc s.pcs t Pc.atLoop }
  | sleepStep (t : Tid) (s : LS)
      (h : s.pcs t = Pc.atLoop) (hg : s.guard = some t) (hh : s.holder ≠ none) :
      Step t s { s with guard := none, queue := s.queue ++ [t],
                        pcs := setPc s.pcs t Pc.sleeping }
  | takeLock (t : Tid) (s : LS)
      (h : s.pcs t = Pc.atLoop) (hg : s.guard = some t) (hh : s.holder = none) :
      Step t s { s with holder := some t, pcs := setPc s.pcs t Pc.relGuardA }
  | finishAcquire (t : Tid) (s : LS)
      (h : s.pcs t = Pc.relGuardA) (hg : s.guard = some t) :
      Step t s { s with guard := none, pcs := setPc s.pcs t Pc.holding }
  | startRelease (t : Tid) (s : LS)
      (h : s.pcs t = Pc.holding) (hh : s.holder = some t) :
      Step t s { s with pcs := setPc s.pcs t Pc.wantGuardR }
  | getGuardR (t : Tid) (s : LS)
      (h : s.pcs t = Pc.wantGuardR) (hg : s.guard = none) :
      Step t s { s with guard := some t, pcs := setPc s.pcs t Pc.inRelease }
  | clearHolder (t : Tid) (s : LS)
      (h : s.pcs t = Pc.inRelease) (hg : s.guard = some t) :
      Step t s { s with holder := none, pcs := setPc s.pcs t Pc.didClear }
  | wakeNone (t : Tid) (s : LS)
      (h : s.pcs t = Pc.didClear) (hg : s.guard = some t) (hq : s.queue = []) :
      Step t s { s with pcs := setPc s.pcs t Pc.didWake }
  | wakeSome (t u : Tid) (rest : List Tid) (s : LS)
      (h : s.pcs t = Pc.didClear) (hg : s.guard = some t)
      (hq : s.queue = u :: rest) :
      Step t s { s with queue := rest,
                        pcs := setPc (setPc s.pcs u Pc.wantGuard) t Pc.didWake }
  | finishRelease (t : Tid) (s : LS)
      (h : s.pcs t = Pc.didWake) (hg : s.guard = some t) :
      Step t s { s with guard := none, pcs := setPc s.pcs t Pc.idle }

/-- The state right after `lock_create`: no holder, free spinlock,
empty wait channel, every thread outside the protocol. -/
def initLS : LS :=
  { holder := none, guard := none, queue := [], pcs := fun _ => Pc.idle }

/-- States reachable from the freshly created lock. -/
inductive Reachable : LS → Prop where
  | init : Reachable initLS
  | step (t : Tid) (s s' : LS) : Reachable s → Step t s s' → Reachable s'

/-- `lock_do_i_hold` (synch.c lines 274-282): compares
`lock->holding_thread` with `curthread`. -/
def lock_do_i_hold (caller : Tid) (s : LS) : Bool :=
  decide (s.holder = some caller)

/-- Control points between the `KASSERT(lock->holding_thread == curthread)`
of `lock_release` and the clearing of the holder field. -/
def releaseRegion (p : Pc) : Prop :=
  p = Pc.wantGuardR ∨ p = Pc.inRelease

/-- Key invariant: any thread inside the release path (past the holder
assertion, before the clear) is the recorded holder. -/
def LockInv (s : LS) : Prop :=
  ∀ t, releaseRegion (s.pcs t) → s.holder = some t

theorem lockInv_init : LockInv initLS := by
  intro t h
  rcases h with h | h <;> simp [initLS] at h

theorem lockInv_step {t : Tid} {s s' : LS}
    (hi : LockInv s) (hs : Step t s s') : LockInv s' := by
  cases hs with
  | startAcquire s h hh =>
      intro u hu
      by_cases hut : u = t
      · subst hut
        simp [setPc, releaseRegion] at hu
      · simp only [setPc] at hu
        rw [if_neg hut] at hu
        exact hi u hu
  | getGuard s h hg =>
      intro u hu
      by_cases hut : u = t
      · subst hut
        simp [setPc, releaseRegion] at hu
      · simp only [setPc] at hu
        rw [if_neg hut] at hu
        exact hi u hu
  | sleepStep s h hg hh =>
      intro u hu
      by_cases hut : u = t
      · subst hut
        simp [setPc, releaseRegion] at hu
      · simp only [setPc] at hu
        rw [if_neg hut] at hu
        exact hi u hu
  | takeLock s h hg hh =>
      intro u hu
      by_cases hut : u = t
      · subst hut
        simp [setPc, releaseRegion] at hu
      · simp only [setPc] at hu
        rw [if_neg hut] at hu
        have h1 := hi u hu
        rw [hh] at h1
        exact absurd h1 (by simp)
  | finishAcquire s h hg =>
      intro u hu
      by_cases hut : u = t
      · subst hut
        simp [setPc, releaseRegion] at hu
      · simp only [setPc] at hu
        rw [if_neg hut] at hu
        exact hi u hu
  | startRelease s h hh =>
      intro u hu
      by_cases hut : u = t
      · subst hut
        exact hh
      · simp only [setPc] at hu
        rw [if_neg hut] at hu
        exact hi u hu
  | getGuardR s h hg =>
      intro u hu
      by_cases hut : u = t
      · subst hut
        exact hi u (Or.inl h)
      · simp only [setPc] at hu
        rw [if_neg hut] at hu
        exact hi u hu
  | clearHolder s h hg =>
      intro u hu
      by_cases hut : u = t
      · subst hut
        simp [setPc, releaseRegion] at hu
      · simp only [setPc] at hu
        rw [if_neg hut] at hu
        have h1 := hi u hu
        have h2 := hi t (Or.inr h)
        rw [h2] at h1
        exact absurd (Option.some.inj h1).symm hut
  | wakeNone s h hg hq =>
      intro u hu
      by_cases hut : u = t
      · subst hut
        simp [setPc, releaseRegion] at hu
      · simp only [setPc] at hu
        rw [if_neg hut] at hu
        exact hi u hu
  | wakeSome u rest s h hg hq =>
      intro v hv
      by_cases hvt : v = t
      · subst hvt
        simp [setPc, releaseRegion] at hv
      · simp only [setPc] at hv
        rw [if_neg hvt] at hv
        by_cases hvu : v = u
        · subst hvu
          rw [if_pos rfl] at hv
          simp [releaseRegion] at hv
        · rw [if_neg hvu] at hv
          exact hi v hv
  | finishRelease s h hg =>
      intro u hu
      by_cases hut : u = t
      · subst hut
        simp [setPc, releaseRegion] at hu
      · simp only [setPc] at hu
        rw [if_neg hut] at hu
        exact hi u hu

theorem lockInv_reachable {s : LS} (hr : Reachable s) : LockInv s := by
  induction hr with
  | init => exact lockInv_init
  | step t s s' _ hs ih => exact lockInv_step ih hs


/-- C1: in every reachable lock state, at most one thread is recorded
as holder and `lock_do_i_hold` is true exactly for the recorded holder;
across any step, the holder field goes from none to `T` only by `T`
itself while it holds the spin-guard and the lock is free, and it
leaves `some T` only by `T` itself, becoming none. -/
theorem c1_lock_holder_protocol (s s' : LS) (t : Tid)
    (hr : Reachable s) (hstep : Step t s s') :
    (∀ a b, lock_do_i_hold a s = true → lock_do_i_hold b s = true → a = b)
    ∧ (∀ u, lock_do_i_hold u s = true ↔ s.holder = some u)
    ∧ (s.holder = none → ∀ T, s'.holder = some T → T = t ∧ s.guard = some t)
    ∧ (∀ T, s.holder = some T → s'.holder ≠ some T → t = T ∧ s'.holder = none) := by
  have hinv := lockInv_reachable hr
  refine ⟨?_, ?_, ?_, ?_⟩
  · intro a b ha hb
    simp only [lock_do_i_hold, decide_eq_true_eq] at ha hb
    rw [ha] at hb
    exact Option.some.inj hb
  · intro u
    simp [lock_do_i_hold]
  · intro hnone T hT
    cases hstep with
    | startAcquire s h hh =>
        have h1 : s.holder = some T := hT
        rw [hnone] at h1
        exact Option.noConfusion h1
    | getGuard s h hg =>
        have h1 : s.holder = some T := hT
        rw [hnone] at h1
        exact Option.noConfusion h1
    | sleepStep s h hg hh =>
        have h1 : s.holder = some T := hT
        rw [hnone] at h1
        exact Option.noConfusion h1
    | takeLock s h hg hh =>
        have h1 : some t = some T := hT
        exact ⟨(Option.some.inj h1).symm, hg⟩
    | finishAcquire s h hg =>
        have h1 : s.holder = some T := hT
        rw [hnone] at h1
        exact Option.noConfusion h1
    | startRelease s h hh =>
        have h1 : s.holder = some T := hT
        rw [hnone] at h1
        exact Option.noConfusion h1
    | getGuardR s h hg =>
        have h1 : s.holder = some T := hT
        rw [hnone] at h1
        exact Option.noConfusion h1
    | clearHolder s h hg =>
        have h1 : (none : Option Tid) = some T := hT
        exact Option.noConfusion h1
    | wakeNone s h hg hq =>
        have h1 : s.holder = some T := hT
        rw [hnone] at h1
        exact Option.noConfusion h1
    | wakeSome u rest s h hg hq =>
        have h1 : s.holder = some T := hT
        rw [hnone] at h1
        exact Option.noConfusion h1
    | finishRelease s h hg =>
        have h1 : s.holder = some T := hT
        rw [hnone] at h1
        exact Option.noConfusion h1
  · intro T hT hT'
    cases hstep with
    | startAcquire s h hh => exact absurd hT hT'
    | getGuard s h hg => exact absurd hT hT'
    | sleepStep s h hg hh => exact absurd hT hT'
    | takeLock s h hg hh =>
        rw [hh] at hT
        exact Option.noConfusion hT
    | finishAcquire s h hg => exact absurd hT hT'
    | startRelease s h hh => exact absurd hT hT'
    | getGuardR s h hg => exact absurd hT hT'
    | clearHolder s h hg =>
        have h2 := hinv t (Or.inr h)
        rw [hT] at h2
        exact ⟨(Option.some.inj h2).symm, rfl⟩
    | wakeNone s h hg hq => exact absurd hT hT'
    | wakeSome u rest s h hg hq => exact absurd hT hT'
    | finishRelease s h hg => exact absurd hT hT'

/-- Witness for C1: the initial lock state with thread 0 entering
`lock_acquire`. -/
theorem c1_lock_holder_protocol_witness :
    (∀ a b, lock_do_i_hold a initLS = true → lock_do_i_hold b initLS = true → a = b)
    ∧ (∀ u, lock_do_i_hold u initLS = true ↔ initLS.holder = some u)
    ∧ (initLS.holder = none →
        ∀ T, ({ initLS with pcs := setPc initLS.pcs 0 Pc.wantGuard } : LS).holder = some T →
          T = 0 ∧ initLS.guard = some 0)
    ∧ (∀ T, initLS.holder = some T →
        ({ initLS with pcs := setPc initLS.pcs 0 Pc.wantGuard } : LS).holder ≠ some T →
          0 = T ∧ ({ initLS with pcs := setPc initLS.pcs 0 Pc.wantGuard } : LS).holder = none) :=
  c1_lock_holder_protocol initLS
    { initLS with pcs := setPc initLS.pcs 0 Pc.wantGuard } 0
    Reachable.init (Step.startAcquire 0 initLS rfl (by simp [initLS]))

/-!
Part 2: functional embeddings of the individual operations of
`synch.c`, each viewed as a single uninterrupted execution of the C
function body (the spin-guard acquisition always succeeds in this
sequential view).  Fatal `KASSERT` failures are `Except.error` carrying
the asserted condition.
-/

/-- `2 ^ 32`: one more than the largest value of the C type `unsigned`
holding `sem_count`; arithmetic on the field wraps modulo this. -/
def wordSize : Nat := 2 ^ 32

/-- `struct semaphore` (synch.h): diagnostic name, `unsigned sem_count`
and the threads sleeping on `sem_wchan`. -/
structure Semaphore where
  sem_name : String
  sem_count : Nat
  sem_queue : List Tid
deriving DecidableEq

/-- Modelled from the spec: `wchan_wakeone` (wchan.c is not in src)
moves at most one queued thread to runnable - the head if the queue is
nonempty, nobody otherwise.  Returns the remaining queue and the woken
thread. -/
def wchan_wakeone (q : List Tid) : List Tid × Option Tid :=
  match q with
  | [] => ([], none)
  | u :: rest => (rest, some u)

/-- Modelled from the spec: `wchan_destroy`/`wchan_cleanup` (wchan.c is
not in src) is fatal if any thread is queued; see the comment at
synch.c line 82 and the destroy-with-waiters property of the spec. -/
def wchan_destroy_fn (q : List Tid) : Except String Unit :=
  if q = [] then Except.ok () else Except.error "wchan_destroy with threads queued"

/-- Result of one attempt of `P` (synch.c lines 89-122): either the
count was positive and was decremented, or it was zero and the caller
went to sleep on `sem_wchan` (the C while loop retries after waking). -/
inductive POutcome where
  | completed (sem : Semaphore)
  | blocked (sem : Semaphore)
deriving DecidableEq

/-- `P` (synch.c lines 89-122) on a non-null semaphore: the eager
`KASSERT(curthread->t_in_interrupt == false)`, then under `sem_lock`
either sleep (count zero) or decrement. -/
def P_fn (in_intr : Bool) (caller : Tid) (sem : Semaphore) : Except String POutcome :=
  if in_intr then Except.error "curthread->t_in_interrupt == false"
  else if sem.sem_count = 0 then
    Except.ok (POutcome.blocked { sem with sem_queue := sem.sem_queue ++ [caller] })
  else
    Except.ok (POutcome.completed { sem with sem_count := sem.sem_count - 1 })

/-- `V` (synch.c lines 124-136) on a non-null semaphore: under
`sem_lock`, increment `sem_count` (unsigned, so modulo `2 ^ 32`),
`KASSERT(sem->sem_count > 0)`, then `wchan_wakeone`.  Returns the new
semaphore and the woken thread, if any. -/
def V_fn (sem : Semaphore) : Except String (Semaphore × Option Tid) :=
  let c1 := (sem.sem_count + 1) % wordSize
  if c1 = 0 then Except.error "sem->sem_count > 0"
  else
    let qw := wchan_wakeone sem.sem_queue
    Except.ok ({ sem with sem_count := c1, sem_queue := qw.1 }, qw.2)

/-- `struct lock` (synch.h, fields used by synch.c): name, the
`holding_thread` pointer and the threads sleeping on `lock_wchan`. -/
structure LockObj where
  lk_name : String
  holding_thread : Option Tid
  lock_queue : List Tid
deriving DecidableEq

/-- `lock_do_i_hold` (synch.c lines 274-282) on a non-null lock:
`lock->holding_thread == curthread`. -/
def lock_do_i_hold_fn (caller : Tid) (lock : LockObj) : Bool :=
  decide (lock.holding_thread = some caller)

/-- Result of one attempt of the `lock_acquire` while loop: the lock
was free and is now owned by the caller, or the caller went to sleep on
`lock_wchan`. -/
inductive AcquireOutcome where
  | acquired (lock : LockObj)
  | blocked (lock : LockObj)
deriving DecidableEq

/-- `lock_acquire` (synch.c lines 195-238) on a non-null lock: the
eager interrupt-context `KASSERT`, the `KASSERT(!lock_do_i_hold(lock))`
against recursive acquisition, then under `lock_lock` with interrupts
raised either sleep (holder set) or take the lock. -/
def lock_acquire_fn (in_intr : Bool) (caller : Tid) (lock : LockObj) :
    Except String AcquireOutcome :=
  if in_intr then Except.error "curthread->t_in_interrupt == false"
  else if lock_do_i_hold_fn caller lock then Except.error "!lock_do_i_hold(lock)"
  else if lock.holding_thread = none then
    Except.ok (AcquireOutcome.acquired { lock with holding_thread := some caller })
  else
    Except.ok (AcquireOutcome.blocked { lock with lock_queue := lock.lock_queue ++ [caller] })

/-- `lock_release` (synch.c lines 239-272) on a non-null lock:
`KASSERT(lock->holding_thread == curthread)`, then under `lock_lock`
with interrupts raised clear the holder and `wchan_wakeone`.  Returns
the new lock and the woken thread, if any. -/
def lock_release_fn (caller : Tid) (lock : LockObj) :
    Except String (LockObj × Option Tid) :=
  if lock.holding_thread = some caller then
    let qw := wchan_wakeone lock.lock_queue
    Except.ok ({ lock with holding_thread := none, lock_queue := qw.1 }, qw.2)
  else Except.error "lock->holding_thread == curthread"

/-- `struct cv` as left by this source: `cv_create` (synch.c lines
290-309) allocates only the name; no wait queue field exists. -/
structure CV where
  cv_name : String
deriving DecidableEq

/-- `cv_wait` (synch.c lines 322-328): the body is the unimplemented
stub `(void)cv; (void)lock;` - it checks nothing and changes nothing. -/
def cv_wait_fn (cv : CV) (lock : LockObj) : CV × LockObj := (cv, lock)

/-- `cv_signal` (synch.c lines 330-336): unimplemented stub, a no-op. -/
def cv_signal_fn (cv : CV) (lock : LockObj) : CV × LockObj := (cv, lock)

/-- `cv_broadcast` (synch.c lines 338-344): unimplemented stub, a
no-op - nothing is woken. -/
def cv_broadcast_fn (cv : CV) (lock : LockObj) : CV × LockObj := (cv, lock)

/-- Heap resources a create call may own: the primitive structure
itself, the duplicated name string, the wait channel, and the
initialized internal spinlock. -/
inductive Resource where
  | structMem
  | nameMem
  | wchanMem
  | spinlockRes
deriving DecidableEq

/-- `sem_destroy` (synch.c lines 77-87) on a non-null semaphore:
`spinlock_cleanup`, `wchan_destroy` (fatal with waiters), free the name
and the structure. -/
def sem_destroy_fn (sem : Semaphore) : Except String (List Resource) :=
  match wchan_destroy_fn sem.sem_queue with
  | Except.error e => Except.error e
  | Except.ok _ =>
      Except.ok [Resource.spinlockRes, Resource.wchanMem, Resource.nameMem, Resource.structMem]

/-- `lock_destroy` (synch.c lines 183-193) on a non-null lock:
`spinlock_cleanup`, `wchan_destroy` (fatal with waiters), free the name
and the structure.  Note: `holding_thread` is never examined. -/
def lock_destroy_fn (lock : LockObj) : Except String (List Resource) :=
  match wchan_destroy_fn lock.lock_queue with
  | Except.error e => Except.error e
  | Except.ok _ =>
      Except.ok [Resource.spinlockRes, Resource.wchanMem, Resource.nameMem, Resource.structMem]

/-- `cv_destroy` (synch.c lines 311-320) on a non-null cv: frees the
name and the structure; there is no queue to check. -/
def cv_destroy_fn (_cv : CV) : Except String (List Resource) :=
  Except.ok [Resource.nameMem, Resource.structMem]

/-- Outcomes of the three fallible allocations a create call makes:
`kmalloc` of the structure, `kstrdup` of the name, `wchan_create`. -/
structure AllocEnv where
  struct_ok : Bool
  name_ok : Bool
  wchan_ok : Bool
deriving DecidableEq

/-- What a create call returned, which resources its allocations
produced, and which of those it freed before returning. -/
structure CreateResult (α : Type) where
  result : Option α
  allocated : List Resource
  freed : List Resource
deriving DecidableEq

/-- `sem_create` (synch.c lines 48-75): `kmalloc`, `kstrdup` (freeing
the structure on failure), `wchan_create` (freeing name and structure
on failure), `spinlock_init`, set the count. -/
def sem_create_fn (env : AllocEnv) (name : String) (initial_count : Nat) :
    CreateResult Semaphore :=
  if env.struct_ok = false then { result := none, allocated := [], freed := [] }
  else if env.name_ok = false then
    { result := none, allocated := [Resource.structMem], freed := [Resource.structMem] }
  else if env.wchan_ok = false then
    { result := none, allocated := [Resource.structMem, Resource.nameMem],
      freed := [Resource.nameMem, Resource.structMem] }
  else
    { result := some { sem_name := name, sem_count := initial_count, sem_queue := [] },
      allocated := [Resource.structMem, Resource.nameMem, Resource.wchanMem, Resource.spinlockRes],
      freed := [] }

/-- `lock_create` (synch.c lines 142-181): `kmalloc`, `kstrdup`
(freeing the structure on failure), `spinlock_init`, `wchan_create`
(running `spinlock_cleanup` and freeing name and structure on
failure). -/
def lock_create_fn (env : AllocEnv) (name : String) : CreateResult LockObj :=
  if env.struct_ok = false then { result := none, allocated := [], freed := [] }
  else if env.name_ok = false then
    { result := none, allocated := [Resource.structMem], freed := [Resource.structMem] }
  else if env.wchan_ok = false then
    { result := none,
      allocated := [Resource.structMem, Resource.nameMem, Resource.spinlockRes],
      freed := [Resource.spinlockRes, Resource.nameMem, Resource.structMem] }
  else
    { result := some { lk_name := name, holding_thread := none, lock_queue := [] },
      allocated := [Resource.structMem, Resource.nameMem, Resource.spinlockRes, Resource.wchanMem],
      freed := [] }

/-- `cv_create` (synch.c lines 290-309): `kmalloc`, `kstrdup` (freeing
the structure on failure); nothing else is allocated. -/
def cv_create_fn (env : AllocEnv) (name : String) : CreateResult CV :=
  if env.struct_ok = false then { result := none, allocated := [], freed := [] }
  else if env.name_ok = false then
    { result := none, allocated := [Resource.structMem], freed := [Resource.structMem] }
  else
    { result := some { cv_name := name },
      allocated := [Resource.structMem, Resource.nameMem], freed := [] }

/-- `P` including its leading `KASSERT(sem != NULL)` (synch.c line 92). -/
def P_op (in_intr : Bool) (caller : Tid) : Option Semaphore → Except String POutcome
  | none => Except.error "sem != NULL"
  | some sem => P_fn in_intr caller sem

/-- `V` including its leading `KASSERT(sem != NULL)` (synch.c line 127). -/
def V_op : Option Semaphore → Except String (Semaphore × Option Tid)
  | none => Except.error "sem != NULL"
  | some sem => V_fn sem

/-- `sem_destroy` including its `KASSERT(sem != NULL)` (line 80). -/
def sem_destroy_op : Option Semaphore → Except String (List Resource)
  | none => Except.error "sem != NULL"
  | some sem => sem_destroy_fn sem

/-- `lock_acquire` including its `KASSERT(lock != NULL)` (line 199). -/
def lock_acquire_op (in_intr : Bool) (caller : Tid) :
    Option LockObj → Except String AcquireOutcome
  | none => Except.error "lock != NULL"
  | some lock => lock_acquire_fn in_intr caller lock

/-- `lock_release` including its `KASSERT(lock != NULL)` (line 244). -/
def lock_release_op (caller : Tid) : Option LockObj → Except String (LockObj × Option Tid)
  | none => Except.error "lock != NULL"
  | some lock => lock_release_fn caller lock

/-- `lock_destroy` including its `KASSERT(lock != NULL)` (line 186). -/
def lock_destroy_op : Option LockObj → Except String (List Resource)
  | none => Except.error "lock != NULL"
  | some lock => lock_destroy_fn lock

/-- `lock_do_i_hold` including its `KASSERT(lock != NULL)` (line 279). -/
def lock_do_i_hold_op (caller : Tid) : Option LockObj → Except String Bool
  | none => Except.error "lock != NULL"
  | some lock => Except.ok (lock_do_i_hold_fn caller lock)

/-- `cv_destroy` including its `KASSERT(cv != NULL)` (line 314). -/
def cv_destroy_op : Option CV → Except String (List Resource)
  | none => Except.error "cv != NULL"
  | some cv => cv_destroy_fn cv

/-!
Part 3: sequences of completed P and V operations on one semaphore,
for the counting property.  A step is the count action of `P_fn` /
`V_fn`; `none` means the operation could not complete there (`P` would
block at count zero; `V` would trip its `KASSERT` on wrap). -/

/-- A completed semaphore operation. -/
inductive SemOp where
  | opP
  | opV
deriving DecidableEq

/-- Effect of one completed operation on the count, read off `P_fn` /
`V_fn` (queue and caller are irrelevant to the count). -/
def semStep (c : Nat) : SemOp → Option Nat
  | SemOp.opP =>
      match P_fn false 0 { sem_name := "", sem_count := c, sem_queue := [] } with
      | Except.ok (POutcome.completed sem) => some sem.sem_count
      | _ => none
  | SemOp.opV =>
      match V_fn { sem_name := "", sem_count := c, sem_queue := [] } with
      | Except.ok (sem, _) => some sem.sem_count
      | Except.error _ => none

/-- Run a sequence of completed operations from count `c`. -/
def runSem (c : Nat) : List SemOp → Option Nat
  | [] => some c
  | op :: ops =>
      match semStep c op with
      | none => none
      | some c1 => runSem c1 ops

/-- Number of occurrences of one operation in a sequence. -/
def countOp (target : SemOp) : List SemOp → Nat
  | [] => 0
  | op :: rest => countOp target rest + (if op = target then 1 else 0)

theorem semStep_P (c : Nat) :
    semStep c SemOp.opP = if c = 0 then none else some (c - 1) := by
  by_cases h : c = 0 <;> simp [semStep, P_fn, h]

theorem semStep_V (c : Nat) :
    semStep c SemOp.opV =
      if (c + 1) % wordSize = 0 then none else some ((c + 1) % wordSize) := by
  by_cases h : (c + 1) % wordSize = 0 <;> simp [semStep, V_fn, wchan_wakeone, h]

theorem semStep_some {c c1 : Nat} {op : SemOp} (hW : c < wordSize)
    (hs : semStep c op = some c1) :
    c1 < wordSize ∧
      (c1 : Int) = (c : Int) - (if op = SemOp.opP then 1 else 0)
        + (if op = SemOp.opV then 1 else 0) := by
  cases op with
  | opP =>
      rw [semStep_P] at hs
      by_cases h : c = 0
      · rw [if_pos h] at hs
        cases hs
      · rw [if_neg h] at hs
        have hc1 : c1 = c - 1 := (Option.some.inj hs).symm
        subst hc1
        simp only [if_pos rfl]
        constructor
        · omega
        · simp
          omega
  | opV =>
      rw [semStep_V] at hs
      by_cases h : (c + 1) % wordSize = 0
      · rw [if_pos h] at hs
        cases hs
      · rw [if_neg h] at hs
        have hlt : c + 1 < wordSize := by
          rcases Nat.lt_or_ge (c + 1) wordSize with h1 | h1
          · exact h1
          · have h2 : c + 1 = wordSize := by omega
            rw [h2, Nat.mod_self] at h
            exact absurd rfl h
        have hmod : (c + 1) % wordSize = c + 1 := Nat.mod_eq_of_lt hlt
        rw [hmod] at hs
        have hc1 : c1 = c + 1 := (Option.some.inj hs).symm
        subst hc1
        constructor
        · exact hlt
        · simp

/-- C2: starting from count `c0` (a representable unsigned value), any
sequence of completed P and V operations in which every P found a
positive count leaves the count at `c0 - n + m` (`n` P ops, `m` V ops),
and the count at every intermediate point is the same expression for
the prefix run so far and is never negative. -/
theorem c2_semaphore_count (c0 : Nat) (ops : List SemOp) (c : Nat)
    (h0 : c0 < wordSize) (h : runSem c0 ops = some c) :
    (c : Int) = (c0 : Int) - countOp SemOp.opP ops + countOp SemOp.opV ops
    ∧ ∀ p q, ops = p ++ q →
        ∃ cm, runSem c0 p = some cm ∧ 0 ≤ (cm : Int) ∧
          (cm : Int) = (c0 : Int) - countOp SemOp.opP p + countOp SemOp.opV p := by
  induction ops generalizing c0 with
  | nil =>
      obtain rfl : c0 = c := by simpa [runSem] using h
      refine ⟨by simp [countOp], ?_⟩
      intro p q hpq
      obtain rfl : p = [] := (List.append_eq_nil.mp hpq.symm).1
      exact ⟨c0, rfl, by omega, by simp [countOp]⟩
  | cons op rest ih =>
      have hstep : ∃ c1, semStep c0 op = some c1 ∧ runSem c1 rest = some c := by
        cases hsc : semStep c0 op with
        | none => simp [runSem, hsc] at h
        | some c1 =>
            refine ⟨c1, rfl, ?_⟩
            simpa [runSem, hsc] using h
      obtain ⟨c1, hsc, hrun⟩ := hstep
      obtain ⟨hlt1, hdelta⟩ := semStep_some h0 hsc
      obtain ⟨ih1, ih2⟩ := ih c1 hlt1 hrun
      constructor
      · cases op <;> simp [countOp] at hdelta ih1 ⊢ <;> omega
      · intro p q hpq
        cases p with
        | nil => exact ⟨c0, rfl, by omega, by simp [countOp]⟩
        | cons op2 p1 =>
            rw [List.cons_append] at hpq
            injection hpq with h1 h2
            subst h1
            obtain ⟨cm, hm1, hm2, hm3⟩ := ih2 p1 q h2
            refine ⟨cm, ?_, hm2, ?_⟩
            · simpa [runSem, hsc] using hm1
            · cases op <;> simp [countOp] at hdelta hm3 ⊢ <;> omega

/-- Witness for C2: count 1, one completed P then one completed V. -/
theorem c2_semaphore_count_witness :
    ((1 : Nat) : Int) =
        ((1 : Nat) : Int) - countOp SemOp.opP [SemOp.opP, SemOp.opV]
          + countOp SemOp.opV [SemOp.opP, SemOp.opV]
    ∧ ∀ p q, [SemOp.opP, SemOp.opV] = p ++ q →
        ∃ cm, runSem 1 p = some cm ∧ 0 ≤ (cm : Int) ∧
          (cm : Int) = ((1 : Nat) : Int) - countOp SemOp.opP p + countOp SemOp.opV p :=
  c2_semaphore_count 1 [SemOp.opP, SemOp.opV] 1 (by decide) (by decide)

/-!
Part 4: the remaining claims, settled against the functional
embeddings. -/

/-- C3: `cv_wait` in this source is the unimplemented stub
`(void)cv; (void)lock;` - it never signals a fatal error (even when the
caller does not hold the lock), never enqueues the caller, never
releases the lock and never blocks; it returns both objects
unchanged. -/
theorem c3_cv_wait_stub : ∀ (cv : CV) (lock : LockObj),
    cv_wait_fn cv lock = (cv, lock) :=
  fun _ _ => rfl

/-- C4: `cv_broadcast` in this source is the unimplemented stub
`(void)cv; (void)lock;` - it wakes nobody and never checks the lock;
it returns both objects unchanged (and the cv structure has no wait
queue at all). -/
theorem c4_cv_broadcast_stub : ∀ (cv : CV) (lock : LockObj),
    cv_broadcast_fn cv lock = (cv, lock) :=
  fun _ _ => rfl

/-- C5: `lock_release` is fatal iff the caller is not the recorded
holder; otherwise it clears the holder and wakes exactly the head of
the wait queue when one is queued, nobody when the queue is empty. -/
theorem c5_lock_release_spec (caller : Tid) (lock : LockObj) :
    (lock.holding_thread ≠ some caller →
      lock_release_fn caller lock = Except.error "lock->holding_thread == curthread")
    ∧ (lock.holding_thread = some caller →
        ∃ l' w, lock_release_fn caller lock = Except.ok (l', w)
          ∧ l'.holding_thread = none
          ∧ ((lock.lock_queue = [] ∧ w = none ∧ l'.lock_queue = [])
             ∨ ∃ u rest, lock.lock_queue = u :: rest ∧ w = some u ∧ l'.lock_queue = rest)) := by
  constructor
  · intro hne
    simp [lock_release_fn, hne]
  · intro hh
    cases hq : lock.lock_queue with
    | nil =>
        refine ⟨⟨lock.lk_name, none, []⟩, none, ?_, rfl, Or.inl ⟨rfl, rfl, rfl⟩⟩
        simp [lock_release_fn, hh, wchan_wakeone, hq]
    | cons u rest =>
        refine ⟨⟨lock.lk_name, none, rest⟩, some u, ?_, rfl, Or.inr ⟨u, rest, rfl, rfl, rfl⟩⟩
        simp [lock_release_fn, hh, wchan_wakeone, hq]

/-- Witness for C5: a lock held by thread 1 with thread 2 queued;
thread 0 releasing is fatal, thread 1 releasing clears the holder and
wakes thread 2. -/
theorem c5_lock_release_spec_witness :
    lock_release_fn 0 ⟨"l", some 1, [2]⟩ = Except.error "lock->holding_thread == curthread"
    ∧ ∃ l' w, lock_release_fn 1 ⟨"l", some 1, [2]⟩ = Except.ok (l', w)
        ∧ l'.holding_thread = none
        ∧ (((⟨"l", some 1, [2]⟩ : LockObj).lock_queue = [] ∧ w = none ∧ l'.lock_queue = [])
           ∨ ∃ u rest, (⟨"l", some 1, [2]⟩ : LockObj).lock_queue = u :: rest
               ∧ w = some u ∧ l'.lock_queue = rest) :=
  ⟨(c5_lock_release_spec 0 ⟨"l", some 1, [2]⟩).1 (by decide),
   (c5_lock_release_spec 1 ⟨"l", some 1, [2]⟩).2 rfl⟩

/-- C6 counterexample: destroying a lock whose holder is still set (but
with an empty wait queue) is not fatal - `lock_destroy` never examines
`holding_thread`, so the call succeeds and frees everything. -/
theorem c6_lock_destroy_counterexample :
    lock_destroy_fn ⟨"l", some 0, []⟩ =
      Except.ok [Resource.spinlockRes, Resource.wchanMem, Resource.nameMem, Resource.structMem] :=
  rfl

/-- C6 amended: `lock_destroy` is fatal iff threads are queued on the
wait channel (via `wchan_destroy`); with an empty queue it succeeds -
regardless of the holder field - and frees every owned sub-resource. -/
theorem c6_lock_destroy_amended (lock : LockObj) :
    (lock.lock_queue = [] →
      lock_destroy_fn lock =
        Except.ok [Resource.spinlockRes, Resource.wchanMem, Resource.nameMem, Resource.structMem])
    ∧ (lock.lock_queue ≠ [] →
        lock_destroy_fn lock = Except.error "wchan_destroy with threads queued") := by
  constructor
  · intro hq
    simp [lock_destroy_fn, wchan_destroy_fn, hq]
  · intro hq
    simp [lock_destroy_fn, wchan_destroy_fn, hq]

/-- Witness for C6 amended: empty queue succeeds, queued thread 3 is
fatal. -/
theorem c6_lock_destroy_amended_witness :
    lock_destroy_fn ⟨"l", none, []⟩ =
      Except.ok [Resource.spinlockRes, Resource.wchanMem, Resource.nameMem, Resource.structMem]
    ∧ lock_destroy_fn ⟨"l", none, [3]⟩ = Except.error "wchan_destroy with threads queued" :=
  ⟨(c6_lock_destroy_amended ⟨"l", none, []⟩).1 rfl,
   (c6_lock_destroy_amended ⟨"l", none, [3]⟩).2 (by decide)⟩

/-- C7: `P` and `lock_acquire` fail their interrupt-context `KASSERT`
first, before looking at the count or the holder - so even calls that
would complete without blocking are fatal from interrupt context; but
`cv_wait` (the third blocking operation) is an unimplemented no-op and
performs no such check. -/
theorem c7_eager_interrupt_check :
    (∀ (caller : Tid) (sem : Semaphore),
        P_fn true caller sem = Except.error "curthread->t_in_interrupt == false")
    ∧ (∀ (caller : Tid) (lock : LockObj),
        lock_acquire_fn true caller lock = Except.error "curthread->t_in_interrupt == false")
    ∧ (∀ (cv : CV) (lock : LockObj), cv_wait_fn cv lock = (cv, lock)) :=
  ⟨fun _ _ => rfl, fun _ _ => rfl, fun _ _ => rfl⟩

/-- C8: `V` increments the count under the guard; an increment that
wraps the unsigned count to zero trips `KASSERT(sem->sem_count > 0)`
and is fatal rather than silent; on success at most one queued thread
(the head, if any) is woken. -/
theorem c8_V_overflow_fatal (sem : Semaphore) :
    (sem.sem_count + 1 = wordSize → V_fn sem = Except.error "sem->sem_count > 0")
    ∧ (sem.sem_count + 1 < wordSize →
        ∃ sem' w, V_fn sem = Except.ok (sem', w)
          ∧ sem'.sem_count = sem.sem_count + 1
          ∧ ((sem.sem_queue = [] ∧ w = none ∧ sem'.sem_queue = [])
             ∨ ∃ u rest, sem.sem_queue = u :: rest ∧ w = some u ∧ sem'.sem_queue = rest)) := by
  constructor
  · intro hW
    have hz : (sem.sem_count + 1) % wordSize = 0 := by
      rw [hW]
      exact Nat.mod_self _
    simp [V_fn, hz]
  · intro hW
    have hmod : (sem.sem_count + 1) % wordSize = sem.sem_count + 1 := Nat.mod_eq_of_lt hW
    have hne : (sem.sem_count + 1) % wordSize ≠ 0 := by
      rw [hmod]
      omega
    cases hq : sem.sem_queue with
    | nil =>
        refine ⟨⟨sem.sem_name, sem.sem_count + 1, []⟩, none, ?_, rfl, Or.inl ⟨rfl, rfl, rfl⟩⟩
        simp [V_fn, hne, hmod, wchan_wakeone, hq]
    | cons u rest =>
        refine ⟨⟨sem.sem_name, sem.sem_count + 1, rest⟩, some u, ?_, rfl,
          Or.inr ⟨u, rest, rfl, rfl, rfl⟩⟩
        simp [V_fn, hne, hmod, wchan_wakeone, hq]

/-- Witness for C8: count 0 with thread 7 queued yields count 1 and
wakes thread 7; count `2 ^ 32 - 1` makes V fatal. -/
theorem c8_V_overflow_fatal_witness :
    (∃ sem' w, V_fn ⟨"s", 0, [7]⟩ = Except.ok (sem', w)
      ∧ sem'.sem_count = (⟨"s", 0, [7]⟩ : Semaphore).sem_count + 1
      ∧ (((⟨"s", 0, [7]⟩ : Semaphore).sem_queue = [] ∧ w = none ∧ sem'.sem_queue = [])
         ∨ ∃ u rest, (⟨"s", 0, [7]⟩ : Semaphore).sem_queue = u :: rest
             ∧ w = some u ∧ sem'.sem_queue = rest))
    ∧ V_fn ⟨"s", wordSize - 1, []⟩ = Except.error "sem->sem_count > 0" :=
  ⟨(c8_V_overflow_fatal ⟨"s", 0, [7]⟩).2 (by decide),
   (c8_V_overflow_fatal ⟨"s", wordSize - 1, []⟩).1 (by decide)⟩

/-- C9: each create call that returns the absence indicator has freed
exactly what it had allocated (as multisets), and a successful create
frees nothing. -/
theorem c9_create_unwinds (env : AllocEnv) (name : String) (cnt : Nat) :
    ((sem_create_fn env name cnt).result = none →
        ((sem_create_fn env name cnt).freed).Perm ((sem_create_fn env name cnt).allocated))
    ∧ ((sem_create_fn env name cnt).result ≠ none → (sem_create_fn env name cnt).freed = [])
    ∧ ((lock_create_fn env name).result = none →
        ((lock_create_fn env name).freed).Perm ((lock_create_fn env name).allocated))
    ∧ ((lock_create_fn env name).result ≠ none → (lock_create_fn env name).freed = [])
    ∧ ((cv_create_fn env name).result = none →
        ((cv_create_fn env name).freed).Perm ((cv_create_fn env name).allocated))
    ∧ ((cv_create_fn env name).result ≠ none → (cv_create_fn env name).freed = []) := by
  obtain ⟨so, no, wo⟩ := env
  cases so <;> cases no <;> cases wo <;>
    refine ⟨?_, ?_, ?_, ?_, ?_, ?_⟩ <;>
      simp [sem_create_fn, lock_create_fn, cv_create_fn] <;>
        decide

/-- Witness for C9: a failing `wchan_create` makes sem/lock create
unwind; fully successful creates free nothing; a failing `kmalloc`
makes cv create return with nothing allocated. -/
theorem c9_create_unwinds_witness :
    ((sem_create_fn ⟨true, true, false⟩ "s" 1).freed).Perm
        ((sem_create_fn ⟨true, true, false⟩ "s" 1).allocated)
    ∧ (sem_create_fn ⟨true, true, true⟩ "s" 1).freed = []
    ∧ ((lock_create_fn ⟨true, true, false⟩ "s").freed).Perm
        ((lock_create_fn ⟨true, true, false⟩ "s").allocated)
    ∧ (lock_create_fn ⟨true, true, true⟩ "s").freed = []
    ∧ ((cv_create_fn ⟨false, true, true⟩ "s").freed).Perm
        ((cv_create_fn ⟨false, true, true⟩ "s").allocated)
    ∧ (cv_create_fn ⟨true, true, true⟩ "s").freed = [] :=
  ⟨(c9_create_unwinds ⟨true, true, false⟩ "s" 1).1 rfl,
   (c9_create_unwinds ⟨true, true, true⟩ "s" 1).2.1 (by simp [sem_create_fn]),
   (c9_create_unwinds ⟨true, true, false⟩ "s" 1).2.2.1 rfl,
   (c9_create_unwinds ⟨true, true, true⟩ "s" 1).2.2.2.1 (by simp [lock_create_fn]),
   (c9_create_unwinds ⟨false, true, true⟩ "s" 1).2.2.2.2.1 rfl,
   (c9_create_unwinds ⟨true, true, true⟩ "s" 1).2.2.2.2.2 (by simp [cv_create_fn])⟩

/-- C10: every handle-taking operation of synch.c opens with a
`KASSERT` against the null handle, so a null handle is a defined fatal
stop before any state is read or written. -/
theorem c10_null_handle_fatal :
    (∀ (i : Bool) (t : Tid), P_op i t none = Except.error "sem != NULL")
    ∧ V_op none = Except.error "sem != NULL"
    ∧ sem_destroy_op none = Except.error "sem != NULL"
    ∧ (∀ (i : Bool) (t : Tid), lock_acquire_op i t none = Except.error "lock != NULL")
    ∧ (∀ t : Tid, lock_release_op t none = Except.error "lock != NULL")
    ∧ lock_destroy_op none = Except.error "lock != NULL"
    ∧ (∀ t : Tid, lock_do_i_hold_op t none = Except.error "lock != NULL")
    ∧ cv_destroy_op none = Except.error "cv != NULL" :=
  ⟨fun _ _ => rfl, rfl, rfl, fun _ _ => rfl, fun _ => rfl, rfl, fun _ => rfl, rfl⟩

end Synch
